import Mathlib

/-!
Shallow embedding of the smart-dbf-watchdog supervisor core:
`src/src/lock_manager.py` (single-instance lock protocol),
`src/src/watchdog.py` (worker health classification and start),
and the recovery policy of the main loop in `src/main.py`.

Timestamps are modelled as integer seconds of wall-clock time; the
Python code's float minute arithmetic (`total_seconds() / 60`) is
embedded exactly over ℚ.  External collaborators (the Windows named
mutex, `tasklist` output, `strptime`, filesystem write success, the
post-create re-read) are oracle parameters, mirroring how the Python
code consumes their results.
-/

namespace Watchdog

/-- A parsed lock record: the fields `check_and_acquire` / `refresh_lock`
write (`timestamp`, `pid`, `type`) and read back.  `ts` is the parsed
timestamp in seconds; `kind` is the `"type"` tag. -/
structure LockRec where
  ts : Int
  pid : Nat
  kind : String
deriving DecidableEq, Repr

/-- Content of a lock file as seen through `json.load` + `strptime`:
either a record that parsed, or content whose read/parse raised
(corrupt JSON, missing or unparsable timestamp). -/
inductive FileContent
  | valid (rec : LockRec)
  | corrupt
deriving DecidableEq, Repr

namespace LockManager

/-- `LOCK_TIMEOUT_MINUTES = 5` in `lock_manager.py`. -/
def LOCK_TIMEOUT_MINUTES : ℚ := 5

/-- Contiguous-sublist test on character lists. -/
def charsIn (needle : List Char) : List Char → Bool
  | [] => needle.isEmpty
  | c :: rest => needle.isPrefixOf (c :: rest) || charsIn needle rest

/-- Substring containment, modelling Python's `needle in haystack`. -/
def strIn (needle hay : String) : Bool :=
  charsIn needle.data hay.data

/-- Character-wise ASCII lowercasing, modelling Python's `str.lower()`
on `tasklist` output. -/
def strLower (s : String) : String :=
  ⟨s.data.map Char.toLower⟩

/-- `LockManager._is_process_running`: runs `tasklist /FI "PID eq {pid}"`
and inspects stdout.  `tl = none` models the subprocess call raising
(timeout or error), in which case the code conservatively answers
`True`.  Otherwise it answers `True` iff the lowercased output does not
contain `'info: no tasks'` and does contain the decimal pid. -/
def _is_process_running (tl : Option String) (pid : Nat) : Bool :=
  match tl with
  | none => true
  | some out =>
    let output := strLower out
    if ¬ strIn "info: no tasks" output ∧ strIn (toString pid) output then
      true
    else
      false

/-- Outcome of the `CreateMutexW` step in `check_and_acquire`:
either the ctypes call raised a Python exception, or it returned and
`GetLastError()` gave `lastError`. -/
inductive MutexOutcome
  | raised
  | ok (lastError : Nat)
deriving DecidableEq, Repr

/-- `ERROR_ALREADY_EXISTS = 183`. -/
def ERROR_ALREADY_EXISTS : Nat := 183

/-- What the post-create verification re-read observes: the re-read
raised, or it parsed and `verify_data.get('pid')` gave `pid?`
(`none` = no `pid` key).  An oracle because between the write and the
re-read the file lives on a shared filesystem. -/
inductive VerifyObs
  | raises
  | reads (pid? : Option Nat)
deriving DecidableEq, Repr

/-- Result of one iteration of the retry loop in `check_and_acquire`:
`ret b file owns` when the iteration returned `b` leaving the lock file
in state `file` and `owns_lock = owns`; `retry file` when the exclusive
create raised `FileExistsError` and the loop continues. -/
inductive AttemptOut
  | ret (b : Bool) (file : Option FileContent) (owns : Bool)
  | retry (file : Option FileContent)
deriving DecidableEq, Repr

/-- The exclusive-create (`open(self.lock_path, 'x')`) plus the
post-create verification of `check_and_acquire` (lines 123-163).
The create atomically fails with `FileExistsError` if the file exists;
on success the new record (fresh timestamp, own pid, `"watchdog"` tag)
is written, `owns_lock` is set, and the verification re-read (observed
through `vObs`) either confirms our pid (return `True`) or clears
`owns_lock` and returns `False` without deleting the file. -/
def createStep (file : Option FileContent) (now : Int) (selfPid : Nat)
    (vObs : VerifyObs) : AttemptOut :=
  match file with
  | some f => .retry (some f)
  | none =>
    let newFile : Option FileContent := some (.valid ⟨now, selfPid, "watchdog"⟩)
    match vObs with
    | .raises => .ret false newFile false
    | .reads pid? =>
      if pid? = some selfPid then .ret true newFile true
      else .ret false newFile false

/-- One iteration of the retry loop of `check_and_acquire`
(lines 88-163), run in isolation (no interleaved writer between the
steps of a single iteration): examine an existing lock file — fresh
lock rejects, stale lock with a live owner rejects, orphaned or corrupt
lock is unlinked — then attempt the exclusive create. -/
def attemptOnce (file : Option FileContent) (now : Int)
    (tl : Nat → Option String) (selfPid : Nat) (vObs : VerifyObs) :
    AttemptOut :=
  match file with
  | some (.valid rec) =>
    if ((now - rec.ts : ℚ)) / 60 < LOCK_TIMEOUT_MINUTES then
      .ret false (some (.valid rec)) false
    else if _is_process_running (tl rec.pid) rec.pid then
      .ret false (some (.valid rec)) false
    else
      createStep none now selfPid vObs
  | some .corrupt => createStep none now selfPid vObs
  | none => createStep none now selfPid vObs

/-- The retry loop of `check_and_acquire` with the remaining attempt
budget as fuel (`max_retries = 3`); exhausting the budget returns
`False` (line 167). -/
def acquireLoop (fuel : Nat) (file : Option FileContent) (now : Int)
    (tl : Nat → Option String) (selfPid : Nat) (vObs : VerifyObs) :
    Bool × Option FileContent × Bool :=
  match fuel with
  | 0 => (false, file, false)
  | n + 1 =>
    match attemptOnce file now tl selfPid vObs with
    | .ret b f o => (b, f, o)
    | .retry f => acquireLoop n f now tl selfPid vObs

/-- `LockManager.check_and_acquire` run by a single process in
isolation.  Step 1 creates the Windows named mutex: a raised exception
returns `False` immediately, as does `GetLastError() ==
ERROR_ALREADY_EXISTS`; any other outcome proceeds to the file-based
retry loop.  Returns `(result, final lock-file state, owns_lock)`. -/
def check_and_acquire (m : MutexOutcome) (file : Option FileContent)
    (now : Int) (tl : Nat → Option String) (selfPid : Nat)
    (vObs : VerifyObs) : Bool × Option FileContent × Bool :=
  match m with
  | .raised => (false, file, false)
  | .ok lastError =>
    if lastError = ERROR_ALREADY_EXISTS then (false, file, false)
    else acquireLoop 3 file now tl selfPid vObs

/-- `LockManager.refresh_lock`: returns `False` without touching the
file when `owns_lock` is not set or the file has disappeared; otherwise
rewrites the record with a fresh timestamp and own pid.  `writeOk`
models the `open(..., 'w')`/`json.dump` call not raising; a raising
write returns `False` leaving a truncated (corrupt) file. -/
def refresh_lock (owns : Bool) (file : Option FileContent) (now : Int)
    (selfPid : Nat) (writeOk : Bool) : Bool × Option FileContent :=
  if ¬ owns then (false, file)
  else
    match file with
    | none => (false, none)
    | some _ =>
      if writeOk then (true, some (.valid ⟨now, selfPid, "watchdog"⟩))
      else (false, some .corrupt)

/-- In-memory and on-disk state of a `LockManager` instance:
`mutexHandle` (is the Windows mutex handle held), `owns` (`owns_lock`),
and the lock file content. -/
structure LMState where
  mutexHandle : Bool
  owns : Bool
  file : Option FileContent
deriving DecidableEq, Repr

/-- `LockManager.remove_lock` (lines 237-257): release the mutex handle
if held, then unlink the file iff `owns_lock` is set and the file
exists, clearing `owns_lock`.  Every step is wrapped in `try/except`,
so the call never raises; the model is a total function. -/
def remove_lock (s : LMState) : LMState :=
  let s1 : LMState := { s with mutexHandle := false }
  if s1.owns ∧ s1.file.isSome then { s1 with owns := false, file := none }
  else s1

end LockManager

namespace AppWatchdog

/-- Outcome of `AppWatchdog._read_lock_file` followed by
`data.get('timestamp')`: `failure` when the read or JSON parse raised
(or `data` was falsy), `success ts?` when the JSON parsed and the
`timestamp` field was `ts?` (`none` = key absent). -/
inductive ReadOutcome
  | failure
  | success (ts? : Option String)
deriving DecidableEq, Repr

/-- `AppWatchdog._get_lock_age_minutes` given the read outcome, the
`strptime` oracle (`parse s = none` models a raising parse, `some t` a
parsed time in seconds) and the current time.  `if not timestamp_str`
catches both a missing key and an empty string.  Returns the age in
minutes, or `none` when no age is computable. -/
def _get_lock_age_minutes (read : ReadOutcome) (parse : String → Option Int)
    (now : Int) : Option ℚ :=
  match read with
  | .failure => none
  | .success ts? =>
    match ts? with
    | none => none
    | some s =>
      if s = "" then none
      else
        match parse s with
        | none => none
        | some t => some ((now - t : ℚ) / 60)

/-- `AppWatchdog.check_app_status` (lines 99-127): `"not_running"` when
the lock file does not exist; otherwise `"hung"` iff a computable age
strictly exceeds `timeout_minutes`, and `"running_ok"` both for a
recent age and for an uncomputable age. -/
def check_app_status (fileExists : Bool) (read : ReadOutcome)
    (parse : String → Option Int) (now : Int) (timeout_minutes : ℚ) :
    String :=
  if ¬ fileExists then "not_running"
  else
    match _get_lock_age_minutes read parse now with
    | none => "running_ok"
    | some lock_age =>
      if lock_age > timeout_minutes then "hung" else "running_ok"

/-- `AppWatchdog.start_app` (lines 129-187): launch the executable,
sleep the 30-second grace period, then report `True` iff the worker's
lock file exists.  `launchOk = false` models any exception in the
launch sequence (then the `except` clause returns `False` without
checking the artifact); `artifact` is whether the lock file exists
after the grace period. -/
def start_app (launchOk : Bool) (artifact : Bool) : Bool :=
  if launchOk then artifact else false

end AppWatchdog

namespace MainLoop

/-- How one iteration of the `while True` loop in `main.py` ends:
`normal` = the `try` body ran to its inter-cycle sleep, carrying which
branch was taken (`inSchedule`, the status string from
`check_app_status`, and the boolean results of `start_app` /
`kill_app` / the post-kill `start_app`); `brokenPipe` = an `OSError`
with `winerror == 233`; `osError` = any other `OSError`; `exn` = any
other exception. -/
inductive CycleEvent
  | normal (inSchedule : Bool) (estado : String)
      (startOk killOk restartOk : Bool)
  | brokenPipe
  | osError
  | exn
deriving DecidableEq, Repr

/-- `CONFIG["check_interval"]` = 15 minutes in seconds. -/
def check_interval : Nat := 15 * 60

/-- Update of `errores_recientes` over one loop cycle (`main.py` lines
207-353): a failed `start_app` or `kill_app` or post-kill restart
increments it, an in-schedule `running_ok` resets it to zero, a
broken-pipe `OSError` resets it to zero, any other `OSError` or
exception increments it; out-of-schedule cycles leave it unchanged. -/
def cycleErrorsUpdate (e : Nat) (ev : CycleEvent) : Nat :=
  match ev with
  | .normal inSchedule estado startOk killOk restartOk =>
    if inSchedule then
      if estado = "not_running" then
        if startOk then e else e + 1
      else if estado = "hung" then
        if killOk then (if restartOk then e else e + 1) else e + 1
      else if estado = "running_ok" then 0
      else e
    else e
  | .brokenPipe => 0
  | .osError => e + 1
  | .exn => e + 1

/-- Seconds of the final inter-cycle wait chosen by the loop, given the
already-updated error counter: a normally completed cycle sleeps
`check_interval` (lines 314-316); the `OSError` handlers go straight to
the next cycle; the generic exception handler sleeps 300 seconds when
`errores_recientes >= 3` and `check_interval` otherwise (355-368). -/
def cycleWaitSeconds (e' : Nat) (ev : CycleEvent) : Nat :=
  match ev with
  | .normal _ _ _ _ _ => check_interval
  | .brokenPipe => 0
  | .osError => 0
  | .exn => if e' ≥ 3 then 300 else check_interval

end MainLoop

namespace TwoProc

open LockManager

/-- Program counter of one supervisor instance running
`check_and_acquire`, one location per atomic operation on shared
state: the `CreateMutexW` call, the top of a retry-loop iteration
(existence check, read, decide, unlink of an orphan — grouped, since
only one process ever proceeds past the mutex to touch the file), the
exclusive create, the verification re-read, and termination with the
call's result. -/
inductive PC
  | mutexStep
  | checkFile (attempt : Nat)
  | create (attempt : Nat)
  | verify (attempt : Nat)
  | halted (r : Bool)
deriving DecidableEq, Repr

/-- One supervisor process: its pid and program counter. -/
structure Proc where
  pid : Nat
  pc : PC
deriving DecidableEq, Repr

/-- Shared state: the holder of the Windows named mutex, and the
content of the `watchdog.lock` file. -/
structure Shared where
  mutexOwner : Option Nat
  file : Option FileContent
deriving DecidableEq, Repr

/-- A two-process system configuration. -/
structure Config where
  shared : Shared
  a : Proc
  b : Proc
deriving DecidableEq, Repr

/-- One atomic step of a single process, following `check_and_acquire`:
the mutex call rejects immediately when already owned; a fresh lock
file rejects; a stale lock file with a live owner rejects; an orphaned
or corrupt file is unlinked before the create; the exclusive create
fails with `FileExistsError` when the file exists, retrying up to
`max_retries = 3` iterations; the verification re-read accepts iff the
recorded pid is our own. -/
def procStep (now : Int) (tl : Nat → Option String) (p : Proc)
    (s : Shared) : Proc × Shared :=
  match p.pc with
  | .mutexStep =>
    match s.mutexOwner with
    | none => ({ p with pc := .checkFile 0 }, { s with mutexOwner := some p.pid })
    | some _ => ({ p with pc := .halted false }, s)
  | .checkFile a =>
    match s.file with
    | none => ({ p with pc := .create a }, s)
    | some .corrupt => ({ p with pc := .create a }, { s with file := none })
    | some (.valid rec) =>
      if ((now - rec.ts : ℚ)) / 60 < LOCK_TIMEOUT_MINUTES then
        ({ p with pc := .halted false }, s)
      else if _is_process_running (tl rec.pid) rec.pid then
        ({ p with pc := .halted false }, s)
      else
        ({ p with pc := .create a }, { s with file := none })
  | .create a =>
    match s.file with
    | none =>
      ({ p with pc := .verify a },
       { s with file := some (.valid ⟨now, p.pid, "watchdog"⟩) })
    | some _ =>
      if a + 1 < 3 then ({ p with pc := .checkFile (a + 1) }, s)
      else ({ p with pc := .halted false }, s)
  | .verify _ =>
    match s.file with
    | some (.valid rec) =>
      if rec.pid = p.pid then ({ p with pc := .halted true }, s)
      else ({ p with pc := .halted false }, s)
    | _ => ({ p with pc := .halted false }, s)
  | .halted _ => (p, s)

/-- One system step: the scheduler picks process `a` (`true`) or `b`
(`false`). -/
def sysStep (now : Int) (tl : Nat → Option String) (c : Config)
    (choice : Bool) : Config :=
  if choice then
    let r := procStep now tl c.a c.shared
    { c with a := r.1, shared := r.2 }
  else
    let r := procStep now tl c.b c.shared
    { c with b := r.1, shared := r.2 }

/-- Run the system under an arbitrary finite schedule. -/
def run (now : Int) (tl : Nat → Option String) (c : Config) :
    List Bool → Config
  | [] => c
  | ch :: rest => run now tl (sysStep now tl c ch) rest

/-- Both instances start at the mutex call, on a clean host: no mutex
holder and no lock file (the two instances of the claim are the only
ones in the TTL window). -/
def initConfig (pa pb : Nat) : Config :=
  { shared := { mutexOwner := none, file := none },
    a := { pid := pa, pc := .mutexStep },
    b := { pid := pb, pc := .mutexStep } }

/-- Protocol invariant for the clean two-instance start: the winner of
the mutex is the only process past the mutex call; it walks
`checkFile 0 → create 0 → verify 0 → halted true` with the file empty
until its own create and equal to its own fresh record afterwards; the
loser is still at the mutex or halted with `false`. -/
def winnerInv (now : Int) (w : Nat) (pc : PC) (file : Option FileContent) :
    Prop :=
  (pc = .checkFile 0 ∧ file = none) ∨
  (pc = .create 0 ∧ file = none) ∨
  (pc = .verify 0 ∧ file = some (.valid ⟨now, w, "watchdog"⟩)) ∨
  (pc = .halted true ∧ file = some (.valid ⟨now, w, "watchdog"⟩))

/-- The loser of the mutex never touches the file again. -/
def loserInv (pc : PC) : Prop :=
  pc = .mutexStep ∨ pc = .halted false

/-- Global invariant: before anyone ran, everything is clean; once the
mutex is owned, its owner satisfies the winner trajectory and the other
process the loser one. -/
def Inv (now : Int) (c : Config) : Prop :=
  (c.shared.mutexOwner = none ∧ c.a.pc = .mutexStep ∧
     c.b.pc = .mutexStep ∧ c.shared.file = none) ∨
  (c.shared.mutexOwner = some c.a.pid ∧
     winnerInv now c.a.pid c.a.pc c.shared.file ∧ loserInv c.b.pc) ∨
  (c.shared.mutexOwner = some c.b.pid ∧
     winnerInv now c.b.pid c.b.pc c.shared.file ∧ loserInv c.a.pc)

/-- The invariant holds in the initial configuration. -/
theorem inv_init (now : Int) (pa pb : Nat) : Inv now (initConfig pa pb) :=
  Or.inl ⟨rfl, rfl, rfl, rfl⟩

/-- The invariant is preserved by every scheduled step. -/
theorem inv_step (now : Int) (tl : Nat → Option String) (c : Config)
    (ch : Bool) (h : Inv now c) : Inv now (sysStep now tl c ch) := by
  obtain ⟨⟨mo, file⟩, ⟨pidA, pcA⟩, ⟨pidB, pcB⟩⟩ := c
  simp only [Inv, winnerInv, loserInv] at h ⊢
  cases ch with
  | true =>
    simp only [sysStep, if_pos]
    rcases h with ⟨h1, h2, h3, h4⟩ | ⟨h1, h2, h3⟩ | ⟨h1, h2, h3⟩
    · subst h1; subst h2; subst h3; subst h4
      simp [procStep]
    · rcases h2 with ⟨hpc, hf⟩ | ⟨hpc, hf⟩ | ⟨hpc, hf⟩ | ⟨hpc, hf⟩ <;>
        (subst h1; subst hpc; subst hf; simp [procStep]; tauto)
    · rcases h3 with hpc | hpc <;>
        (subst h1; subst hpc; simp [procStep]; tauto)
  | false =>
    simp only [sysStep, if_neg]
    rcases h with ⟨h1, h2, h3, h4⟩ | ⟨h1, h2, h3⟩ | ⟨h1, h2, h3⟩
    · subst h1; subst h2; subst h3; subst h4
      simp [procStep]
    · rcases h3 with hpc | hpc <;>
        (subst h1; subst hpc; simp [procStep]; tauto)
    · rcases h2 with ⟨hpc, hf⟩ | ⟨hpc, hf⟩ | ⟨hpc, hf⟩ | ⟨hpc, hf⟩ <;>
        (subst h1; subst hpc; subst hf; simp [procStep]; tauto)

/-- The invariant holds after running any schedule from an invariant
configuration. -/
theorem inv_run (now : Int) (tl : Nat → Option String) (sched : List Bool)
    (c : Config) (h : Inv now c) : Inv now (run now tl c sched) := by
  induction sched generalizing c with
  | nil => exact h
  | cons ch rest ih => exact ih _ (inv_step now tl c ch h)

end TwoProc

open LockManager AppWatchdog MainLoop

/-- C1: Mutual exclusion of supervisor instances — for any two instances
attempting `check_and_acquire` within the same TTL window (both running
against a clean shared state, arbitrary interleaving), whenever both
calls have returned, exactly one returned `True`; and at any time the
lock file, when it holds a valid record, records the pid of the unique
mutex winner, so at most one valid live-owner record exists. -/
theorem C1_mutual_exclusion (now : Int) (tl : Nat → Option String)
    (pa pb : Nat) (sched : List Bool) (ra rb : Bool)
    (hA : (TwoProc.run now tl (TwoProc.initConfig pa pb) sched).a.pc
      = .halted ra)
    (hB : (TwoProc.run now tl (TwoProc.initConfig pa pb) sched).b.pc
      = .halted rb) :
    ((ra = true ∧ rb = false) ∨ (ra = false ∧ rb = true)) ∧
    (∀ rec,
      (TwoProc.run now tl (TwoProc.initConfig pa pb) sched).shared.file
          = some (.valid rec) →
      (TwoProc.run now tl (TwoProc.initConfig pa pb) sched).shared.mutexOwner
          = some rec.pid) := by
  have hinv := TwoProc.inv_run now tl sched _ (TwoProc.inv_init now pa pb)
  rcases hinv with ⟨hmo, h2, h3, hfile⟩ | ⟨hmo, hw, hl⟩ | ⟨hmo, hw, hl⟩
  · rw [hA] at h2; cases h2
  · rcases hw with ⟨hpc, hf⟩ | ⟨hpc, hf⟩ | ⟨hpc, hf⟩ | ⟨hpc, hf⟩
    · rw [hA] at hpc; cases hpc
    · rw [hA] at hpc; cases hpc
    · rw [hA] at hpc; cases hpc
    · rw [hA] at hpc
      injection hpc with hra
      subst hra
      rcases hl with hbpc | hbpc
      · rw [hB] at hbpc; cases hbpc
      · rw [hB] at hbpc
        injection hbpc with hrb
        subst hrb
        refine ⟨Or.inl ⟨rfl, rfl⟩, ?_⟩
        intro rec hrec
        rw [hf] at hrec
        injection hrec with hv
        injection hv with hr
        rw [← hr]
        exact hmo
  · rcases hw with ⟨hpc, hf⟩ | ⟨hpc, hf⟩ | ⟨hpc, hf⟩ | ⟨hpc, hf⟩
    · rw [hB] at hpc; cases hpc
    · rw [hB] at hpc; cases hpc
    · rw [hB] at hpc; cases hpc
    · rw [hB] at hpc
      injection hpc with hrb
      subst hrb
      rcases hl with hapc | hapc
      · rw [hA] at hapc; cases hapc
      · rw [hA] at hapc
        injection hapc with hra
        subst hra
        refine ⟨Or.inr ⟨rfl, rfl⟩, ?_⟩
        intro rec hrec
        rw [hf] at hrec
        injection hrec with hv
        injection hv with hr
        rw [← hr]
        exact hmo

/-- Witness for C1: a concrete schedule in which instance `a` (pid 1)
runs its whole acquire and then instance `b` (pid 2) attempts the
mutex; `a` returns `True`, `b` returns `False`. -/
theorem C1_mutual_exclusion_witness :
    ((true = true ∧ false = false) ∨ (true = false ∧ false = true)) ∧
    (∀ rec,
      (TwoProc.run 0 (fun _ => none) (TwoProc.initConfig 1 2)
          [true, true, true, true, false]).shared.file = some (.valid rec) →
      (TwoProc.run 0 (fun _ => none) (TwoProc.initConfig 1 2)
          [true, true, true, true, false]).shared.mutexOwner
        = some rec.pid) :=
  C1_mutual_exclusion 0 (fun _ => none) 1 2 [true, true, true, true, false]
    true false (by decide) (by decide)

/-- C2 counterexample: with every ingredient for a successful file-based
acquire in place (no lock file, clean verification), a raising mutex
call makes `check_and_acquire` return `False` (Rejected) — it does not
proceed to the file protocol, contrary to the claim; the identical
environment with a non-raising mutex call returns Acquired. -/
theorem C2_counterexample :
    check_and_acquire .raised none 0 (fun _ => none) 7 (.reads (some 7))
        = (false, none, false) ∧
    check_and_acquire (.ok 0) none 0 (fun _ => none) 7 (.reads (some 7))
        = (true, some (.valid ⟨0, 7, "watchdog"⟩), true) := by
  decide

/-- C2 (amended): the mutex is advisory only for API-level failures
that do not raise — when `CreateMutexW` returns and `GetLastError()` is
anything other than `ERROR_ALREADY_EXISTS` (including error codes),
`check_and_acquire` proceeds with the file-based protocol unchanged and
can return Acquired; but when the mutex call raises (primitive
unavailable), it returns Rejected immediately without the file
protocol. -/
theorem C2_advisory_mutex (lastError : Nat) (f : Option FileContent)
    (now : Int) (tl : Nat → Option String) (p : Nat) (v : VerifyObs)
    (h : lastError ≠ ERROR_ALREADY_EXISTS) :
    check_and_acquire (.ok lastError) f now tl p v
        = acquireLoop 3 f now tl p v ∧
    (check_and_acquire (.ok lastError) none now tl p (.reads (some p))).1
        = true ∧
    (check_and_acquire .raised f now tl p v).1 = false := by
  refine ⟨?_, ?_, rfl⟩
  · simp [check_and_acquire, if_neg h]
  · simp [check_and_acquire, if_neg h, acquireLoop, attemptOnce, createStep]

/-- Witness for C2 (amended) at `lastError = 5` (an API error that is
not already-exists). -/
theorem C2_advisory_mutex_witness :
    check_and_acquire (.ok 5) none 0 (fun _ => none) 7
          (.reads (some 7))
        = acquireLoop 3 none 0 (fun _ => none) 7 (.reads (some 7)) ∧
    (check_and_acquire (.ok 5) none 0 (fun _ => none) 7
        (.reads (some 7))).1 = true ∧
    (check_and_acquire .raised none 0 (fun _ => none) 7
        (.reads (some 7))).1 = false :=
  C2_advisory_mutex 5 none 0 (fun _ => none) 7 (.reads (some 7)) (by decide)

/-- C3: `check_app_status` with timeout `t` returns `"not_running"`
when the worker lock artifact does not exist; when it exists and an age
is computable, returns `"hung"` exactly when the age exceeds `t` and
`"running_ok"` when the age is at most `t`; and when no age is
computable (missing or unparsable timestamp) returns `"running_ok"`,
never `"hung"` and never an error. -/
theorem C3_status_classification (read : ReadOutcome)
    (parse : String → Option Int) (now : Int) (t : ℚ) :
    check_app_status false read parse now t = "not_running" ∧
    (∀ a, _get_lock_age_minutes read parse now = some a →
      (check_app_status true read parse now t = "hung" ↔ t < a) ∧
      (a ≤ t → check_app_status true read parse now t = "running_ok")) ∧
    (_get_lock_age_minutes read parse now = none →
      check_app_status true read parse now t = "running_ok") := by
  refine ⟨rfl, ?_, ?_⟩
  · intro a ha
    by_cases hat : a > t
    · have hst : check_app_status true read parse now t = "hung" := by
        simp [check_app_status, ha, hat]
      exact ⟨⟨fun _ => hat, fun _ => hst⟩,
        fun hle => absurd hat (not_lt.mpr hle)⟩
    · have hst : check_app_status true read parse now t = "running_ok" := by
        simp [check_app_status, ha, hat]
      refine ⟨⟨fun h => ?_, fun h => absurd h hat⟩, fun _ => hst⟩
      rw [hst] at h
      exact absurd h (by decide)
  · intro hnone
    simp [check_app_status, hnone]

/-- Witness for C3: an artifact whose timestamp parsed to 30 minutes
before `now` under timeout 70 is classified `"running_ok"`. -/
theorem C3_status_classification_witness :
    check_app_status true (.success (some "ts")) (fun _ => some 0) 1800 70
      = "running_ok" :=
  ((C3_status_classification (.success (some "ts")) (fun _ => some 0)
      1800 70).2.1 30
    (by
      have h : ¬ (("ts" : String) = "") := by decide
      norm_num [AppWatchdog._get_lock_age_minutes, h])).2 (by norm_num)

/-- C4: Orphan reclamation — an acquire that finds an existing lock
file at least `LOCK_TIMEOUT_MINUTES` old whose recorded pid the
liveness query reports not running succeeds, and the old content is
fully replaced by the new instance's record (fresh timestamp, own pid,
`"watchdog"` tag), not merged with the old content. -/
theorem C4_orphan_reclamation (ts now : Int) (p selfPid : Nat)
    (tl : Nat → Option String) (lastError : Nat) (kind : String)
    (h1 : LOCK_TIMEOUT_MINUTES ≤ (now - ts : ℚ) / 60)
    (h2 : _is_process_running (tl p) p = false)
    (h3 : lastError ≠ ERROR_ALREADY_EXISTS) :
    check_and_acquire (.ok lastError) (some (.valid ⟨ts, p, kind⟩)) now tl
        selfPid (.reads (some selfPid))
      = (true, some (.valid ⟨now, selfPid, "watchdog"⟩), true) := by
  have hlt : ¬ ((now - ts : ℚ) / 60 < LOCK_TIMEOUT_MINUTES) := not_lt.mpr h1
  simp [check_and_acquire, if_neg h3, acquireLoop, attemptOnce, createStep,
    hlt, h2]

/-- Witness for C4: a 5-minute-old lock whose owner `tasklist` reports
gone is reclaimed and rewritten. -/
theorem C4_orphan_reclamation_witness :
    check_and_acquire (.ok 0)
        (some (.valid ⟨0, 5, "watchdog"⟩)) 300
        (fun _ => some "info: no tasks are running which match the specified criteria.")
        7 (.reads (some 7))
      = (true, some (.valid ⟨300, 7, "watchdog"⟩), true) :=
  C4_orphan_reclamation 0 300 5 7
    (fun _ => some "info: no tasks are running which match the specified criteria.")
    0 "watchdog" (by norm_num [LockManager.LOCK_TIMEOUT_MINUTES])
    (by decide) (by decide)

/-- C5: Live-but-stale rejection — an acquire that finds a lock file at
least `LOCK_TIMEOUT_MINUTES` old whose recorded pid the liveness query
reports as running (including the query failing, which conservatively
reports running) returns `False` and leaves the existing lock file
untouched. -/
theorem C5_live_stale_rejection (ts now : Int) (p selfPid : Nat)
    (tl : Nat → Option String) (lastError : Nat) (kind : String)
    (v : VerifyObs)
    (h1 : LOCK_TIMEOUT_MINUTES ≤ (now - ts : ℚ) / 60)
    (h2 : _is_process_running (tl p) p = true ∨ tl p = none) :
    check_and_acquire (.ok lastError) (some (.valid ⟨ts, p, kind⟩)) now tl
        selfPid v
      = (false, some (.valid ⟨ts, p, kind⟩), false) := by
  have hlt : ¬ ((now - ts : ℚ) / 60 < LOCK_TIMEOUT_MINUTES) := not_lt.mpr h1
  have h2' : _is_process_running (tl p) p = true := by
    rcases h2 with h2 | h2
    · exact h2
    · rw [h2]; rfl
  by_cases hle : lastError = ERROR_ALREADY_EXISTS
  · simp [check_and_acquire, hle]
  · simp [check_and_acquire, if_neg hle, acquireLoop, attemptOnce, hlt, h2']

/-- Witness for C5: a 10-minute-old lock whose liveness query itself
fails (conservatively treated as running) is rejected and the file kept. -/
theorem C5_live_stale_rejection_witness :
    check_and_acquire (.ok 0) (some (.valid ⟨0, 5, "watchdog"⟩)) 600
        (fun _ => none) 7 (.reads (some 7))
      = (false, some (.valid ⟨0, 5, "watchdog"⟩), false) :=
  C5_live_stale_rejection 0 600 5 7 (fun _ => none) 0 "watchdog"
    (.reads (some 7)) (by norm_num [LockManager.LOCK_TIMEOUT_MINUTES])
    (Or.inr rfl)

/-- C6: `refresh_lock` returns `False` leaving the lock file unchanged
whenever this instance does not own the lock or the lock file no longer
exists; otherwise (the write not raising) it overwrites the file with a
new timestamp under its own pid and returns `True`. -/
theorem C6_refresh (owns : Bool) (file : Option FileContent) (now : Int)
    (selfPid : Nat) (writeOk : Bool) :
    (owns = false ∨ file = none →
      refresh_lock owns file now selfPid writeOk = (false, file)) ∧
    (owns = true → ∀ c, file = some c → writeOk = true →
      refresh_lock owns file now selfPid writeOk
        = (true, some (.valid ⟨now, selfPid, "watchdog"⟩))) := by
  constructor
  · intro h
    rcases h with h | h
    · simp [refresh_lock, h]
    · subst h
      cases owns <;> simp [refresh_lock]
  · intro ho c hc hw
    subst ho; subst hc; subst hw
    simp [refresh_lock]

/-- Witness for C6: a held lock over an existing file is rewritten with
a fresh timestamp and own pid. -/
theorem C6_refresh_witness :
    refresh_lock true (some (.valid ⟨0, 7, "watchdog"⟩)) 60 7 true
      = (true, some (.valid ⟨60, 7, "watchdog"⟩)) :=
  (C6_refresh true (some (.valid ⟨0, 7, "watchdog"⟩)) 60 7 true).2 rfl
    (.valid ⟨0, 7, "watchdog"⟩) rfl rfl

/-- C7: `remove_lock` is idempotent — a second call changes nothing,
and calling it when the lock was never acquired leaves the file alone
(the model is a total function: every step of the source is wrapped in
`try/except`, so the call never raises); it deletes the lock file iff
this instance still owns it, and under the ownership invariant (owning
implies the file records our pid) it never deletes a file recording a
different process's pid. -/
theorem C7_release_idempotent (s : LMState) (selfPid : Nat)
    (hown : s.owns = true → ∀ r, s.file = some (.valid r) →
      r.pid = selfPid) :
    remove_lock (remove_lock s) = remove_lock s ∧
    (s.owns = false → (remove_lock s).file = s.file) ∧
    (s.owns = true → s.file.isSome → (remove_lock s).file = none) ∧
    ((remove_lock s).file ≠ s.file → s.owns = true) ∧
    (∀ r, s.file = some (.valid r) → r.pid ≠ selfPid →
      (remove_lock s).file = s.file) := by
  obtain ⟨mh, owns, file⟩ := s
  refine ⟨?_, ?_, ?_, ?_, ?_⟩
  · cases owns <;> cases file <;> simp [remove_lock]
  · intro h
    subst h
    simp [remove_lock]
  · intro h hf
    subst h
    cases file with
    | none => cases hf
    | some c => simp [remove_lock]
  · intro h
    cases owns with
    | true => rfl
    | false => cases file <;> simp [remove_lock] at h
  · intro r hf hne
    cases owns with
    | false =>
      subst hf
      simp [remove_lock]
    | true => exact absurd (hown rfl r hf) hne

/-- Witness for C7 on a state where the lock was never acquired over a
file owned by pid 9, with our pid 7: double release equals single
release and the foreign file survives. -/
theorem C7_release_idempotent_witness :
    remove_lock (remove_lock ⟨true, false, some (.valid ⟨0, 9, "watchdog"⟩)⟩)
        = remove_lock ⟨true, false, some (.valid ⟨0, 9, "watchdog"⟩)⟩ ∧
    (false = false →
      (remove_lock ⟨true, false, some (.valid ⟨0, 9, "watchdog"⟩)⟩).file
        = some (.valid ⟨0, 9, "watchdog"⟩)) ∧
    (false = true →
      (some (FileContent.valid ⟨0, 9, "watchdog"⟩)).isSome = true →
      (remove_lock ⟨true, false, some (.valid ⟨0, 9, "watchdog"⟩)⟩).file
        = none) ∧
    ((remove_lock ⟨true, false, some (.valid ⟨0, 9, "watchdog"⟩)⟩).file
        ≠ some (.valid ⟨0, 9, "watchdog"⟩) → false = true) ∧
    (∀ r, some (FileContent.valid ⟨0, 9, "watchdog"⟩)
        = some (FileContent.valid r) → r.pid ≠ 7 →
      (remove_lock ⟨true, false, some (.valid ⟨0, 9, "watchdog"⟩)⟩).file
        = some (.valid ⟨0, 9, "watchdog"⟩)) :=
  C7_release_idempotent ⟨true, false, some (.valid ⟨0, 9, "watchdog"⟩)⟩ 7
    (fun h => nomatch h)

/-- C8 counterexample: a cycle whose third consecutive error comes from
a failed `start_app` (no exception raised) takes the error counter to
the threshold 3, yet the loop sleeps the normal 15-minute interval
(900 s), not the 5-minute backoff (300 s) the claim requires for every
cycle at or above the threshold. -/
theorem C8_counterexample :
    cycleErrorsUpdate 2 (.normal true "not_running" false false false)
        = 3 ∧
    3 ≤ cycleErrorsUpdate 2 (.normal true "not_running" false false false) ∧
    cycleWaitSeconds
        (cycleErrorsUpdate 2 (.normal true "not_running" false false false))
        (.normal true "not_running" false false false) = 900 ∧
    (900 : Nat) ≠ 300 := by
  decide

/-- C8 (amended): the 5-minute backoff applies only to cycles that end
in a generic (non-`OSError`) exception — there, with the incremented
consecutive-error counter at or above 3, the loop waits 300 seconds,
and below 3 it waits the normal `check_interval`; the counter resets to
zero on any in-schedule cycle that observes the worker `"running_ok"`. -/
theorem C8_recovery_policy (e : Nat) (ev : CycleEvent) :
    (ev = .exn → 3 ≤ cycleErrorsUpdate e ev →
      cycleWaitSeconds (cycleErrorsUpdate e ev) ev = 300) ∧
    (ev = .exn → cycleErrorsUpdate e ev < 3 →
      cycleWaitSeconds (cycleErrorsUpdate e ev) ev = check_interval) ∧
    (∀ st ko ro,
      cycleErrorsUpdate e (.normal true "running_ok" st ko ro) = 0) := by
  refine ⟨?_, ?_, ?_⟩
  · intro hev h3
    subst hev
    simp [cycleWaitSeconds, h3]
  · intro hev h3
    subst hev
    simp [cycleWaitSeconds, Nat.not_le.mpr h3]
  · intro st ko ro
    simp [cycleErrorsUpdate]

/-- Witness for C8 (amended): after a fourth consecutive error raised
as a generic exception, the loop backs off 300 seconds. -/
theorem C8_recovery_policy_witness :
    cycleWaitSeconds (cycleErrorsUpdate 3 .exn) .exn = 300 :=
  (C8_recovery_policy 3 .exn).1 rfl (by decide)

/-- C9: `start_app` launches the worker, waits the fixed 30-second
grace period, and (the launch not raising) returns `false` exactly when
the worker's lock artifact has not appeared by the end of the grace
period and `true` otherwise; unconditionally, it reports success only
if the artifact appeared. -/
theorem C9_start_verifies (launchOk artifact : Bool) :
    (launchOk = true → start_app launchOk artifact = artifact) ∧
    (start_app launchOk artifact = true → artifact = true) := by
  constructor
  · intro h
    subst h
    simp [start_app]
  · intro h
    cases launchOk with
    | false => simp [start_app] at h
    | true => simp [start_app] at h; exact h

/-- Witness for C9: a successful launch whose artifact appeared reports
`true`. -/
theorem C9_start_verifies_witness :
    start_app true true = true ∧ true = true :=
  ⟨(C9_start_verifies true true).1 rfl,
   (C9_start_verifies true true).2 ((C9_start_verifies true true).1 rfl)⟩

/-- C10: if the exclusive create succeeds but the post-create
verification fails (the re-read raises, or the pid read back differs
from the caller's), `check_and_acquire` returns `False` with ownership
cleared while the lock file it just created remains on disk — this
failure path performs no unlink — and a later `remove_lock`, seeing
`owns_lock = false`, does not delete it either. -/
theorem C10_verify_failure_leaves_file (now : Int)
    (tl : Nat → Option String) (selfPid : Nat) (lastError : Nat)
    (v : VerifyObs) (mh : Bool)
    (h1 : lastError ≠ ERROR_ALREADY_EXISTS)
    (hv : v = .raises ∨ ∃ q, v = .reads q ∧ q ≠ some selfPid) :
    check_and_acquire (.ok lastError) none now tl selfPid v
        = (false, some (.valid ⟨now, selfPid, "watchdog"⟩), false) ∧
    remove_lock ⟨mh, false, some (.valid ⟨now, selfPid, "watchdog"⟩)⟩
        = ⟨false, false, some (.valid ⟨now, selfPid, "watchdog"⟩)⟩ := by
  constructor
  · rcases hv with hv | ⟨q, hv, hq⟩
    · subst hv
      simp [check_and_acquire, if_neg h1, acquireLoop, attemptOnce,
        createStep]
    · subst hv
      simp [check_and_acquire, if_neg h1, acquireLoop, attemptOnce,
        createStep, hq]
  · simp [remove_lock]

/-- Witness for C10: the re-read raising right after a successful
exclusive create leaves the fresh record on disk, unowned. -/
theorem C10_verify_failure_leaves_file_witness :
    check_and_acquire (.ok 0) none 0 (fun _ => none) 7 .raises
        = (false, some (.valid ⟨0, 7, "watchdog"⟩), false) ∧
    remove_lock ⟨true, false, some (.valid ⟨0, 7, "watchdog"⟩)⟩
        = ⟨false, false, some (.valid ⟨0, 7, "watchdog"⟩)⟩ :=
  C10_verify_failure_leaves_file 0 (fun _ => none) 7 0 .raises true
    (by decide) (Or.inl rfl)

end Watchdog
